import Mathlib

set_option linter.unusedVariables false

/-!
Shallow embedding of the core of the memory-benchmark program: the aligned
buffer, the cache-line alignment arithmetic, the statistics derivation, the
access-pattern kernels at the statistics level, the thread partitioning of
the execution engine, and the working-set generator.

Machine integers (size_t, uintptr_t) are modelled as natural numbers with the
reduction modulo 2^64 made explicit wherever the C++ arithmetic can wrap.
IEEE doubles are modelled as exact rationals; every concrete value the
properties below mention is exactly representable in both models.  Wall-clock
durations measured by the kernels are non-deterministic and appear as an
abstract rational input.
-/

namespace MemBench

/-- Modulus of 64-bit size_t and uintptr_t arithmetic. -/
def M64 : ℕ := 2 ^ 64

/-- SIZE_MAX, the largest size_t value. -/
def SIZE_MAX : ℕ := 2 ^ 64 - 1

/-- Wrapping 64-bit addition. -/
def add64 (a b : ℕ) : ℕ := (a + b) % M64

/-- Wrapping 64-bit subtraction (complement form); used with b ≤ 2^64. -/
def sub64 (a b : ℕ) : ℕ := (a + (M64 - b)) % M64

/-- Bitwise complement of a 64-bit value. -/
def bitnot64 (a : ℕ) : ℕ := M64 - 1 - a

/-- Wrapping 64-bit multiplication, as size_t products behave in the source. -/
def mul64 (a b : ℕ) : ℕ := a * b % M64

/-! Constants from src/common/constants.h and src/common/memory_types.h. -/

def MIN_BUFFER_SIZE : ℕ := 4 * 1024

def MIN_WORKING_SET_SIZE : ℕ := 4 * 1024

def MAX_WORKING_SET_SIZE : ℕ := 4 * 1024 * 1024 * 1024

def KB : ℕ := 1024

def MB : ℕ := 1024 * KB

def GB : ℕ := 1024 * MB

def DEFAULT_CACHE_LINE_SIZE : ℕ := 64

def MAX_REALISTIC_BANDWIDTH_GBPS : ℚ := 60

/-! AlignedBuffer (src/common/aligned_buffer.cpp). -/

/-- AlignedBuffer::calculate_aligned_pointer: round the raw address up to the
next multiple of the alignment with the bitmask formula
(addr + alignment - 1) AND NOT (alignment - 1) over uintptr_t. -/
def calculate_aligned_pointer (raw_addr alignment : ℕ) : ℕ :=
  sub64 (add64 raw_addr alignment) 1 &&& bitnot64 (sub64 alignment 1)

/-- AlignedBuffer::is_power_of_two: n > 0 and n AND (n-1) == 0. -/
def is_power_of_two (n : ℕ) : Bool :=
  decide (0 < n) && (n &&& (n - 1) == 0)

structure AlignedBuffer where
  aligned_addr : ℕ
  size : ℕ
  alignment : ℕ
deriving DecidableEq

/-- AlignedBuffer::is_aligned: the aligned address AND (alignment - 1) is zero. -/
def AlignedBuffer.is_aligned (b : AlignedBuffer) : Bool :=
  b.aligned_addr &&& sub64 b.alignment 1 == 0

/-- The AlignedBuffer constructor: the validation checks in source order,
then the aligned-pointer computation.  The underlying allocation itself always
succeeds in the model, and the raw address the allocator returned is an
explicit argument. -/
def AlignedBuffer.construct (raw_addr size alignment : ℕ) : Except String AlignedBuffer :=
  if size = 0 then .error "Buffer size cannot be zero"
  else if is_power_of_two alignment = false then .error "Alignment must be a power of 2"
  else if SIZE_MAX - alignment < size then .error "Buffer size would cause overflow"
  else .ok { aligned_addr := calculate_aligned_pointer raw_addr alignment,
             size := size, alignment := alignment }

/-! MemoryUtils (src/common/memory_utils.cpp). -/

/-- MemoryUtils::align_to_cache_lines: start_offset rounded up and end_offset
rounded down to the cache-line size, by the bitmask formulas of the source. -/
def align_to_cache_lines (start_offset end_offset cache_line_size : ℕ) : ℕ × ℕ :=
  (sub64 (add64 start_offset cache_line_size) 1 &&& bitnot64 (sub64 cache_line_size 1),
   end_offset &&& bitnot64 (sub64 cache_line_size 1))

/-- MemoryUtils::calculate_working_set_size. -/
def calculate_working_set_size (aligned_start aligned_end : ℕ) : ℕ :=
  if aligned_end ≤ aligned_start then 0 else aligned_end - aligned_start

/-! Statistics (src/common/test_patterns.cpp). -/

structure PerformanceStats where
  bandwidth_gbps : ℚ
  latency_ns : ℚ
  bytes_processed : ℕ
  time_seconds : ℚ
deriving DecidableEq

/-- The all-zero record returned by the kernels for an empty aligned range. -/
def zeroStats : PerformanceStats := ⟨0, 0, 0, 0⟩

/-- calculate_stats: bandwidth and latency from raw counters, with the
realism ceiling of 60 GB/s clamping the bandwidth, and zeros when the time or
the operation count is not positive. -/
def calculate_stats (bytes_processed : ℕ) (time_seconds : ℚ) (operations : ℕ) : PerformanceStats :=
  if 0 < time_seconds ∧ 0 < operations then
    let raw : ℚ := (bytes_processed : ℚ) / (time_seconds * 10 ^ 9)
    { bandwidth_gbps :=
        if MAX_REALISTIC_BANDWIDTH_GBPS < raw then MAX_REALISTIC_BANDWIDTH_GBPS else raw,
      latency_ns := (time_seconds * 10 ^ 9) / (operations : ℚ),
      bytes_processed := bytes_processed,
      time_seconds := time_seconds }
  else
    { bandwidth_gbps := 0, latency_ns := 0,
      bytes_processed := bytes_processed, time_seconds := time_seconds }

/-! Access kernels (src/common/standard_tests.cpp), at the statistics level.
The byte contents of the buffers never reach the returned record (read
kernels fold them into a discarded checksum), so the buffers appear only
through their size; the measured elapsed time is the abstract input
elapsed. -/

/-- StandardTests::sequential_read_test. -/
def sequential_read_test (buffer_size start_offset end_offset iterations : ℕ)
    (stop_flag : Bool) (elapsed : ℚ) : PerformanceStats :=
  let p := align_to_cache_lines start_offset end_offset DEFAULT_CACHE_LINE_SIZE
  if p.2 ≤ p.1 then zeroStats
  else
    let working_set_size := p.2 - p.1
    calculate_stats (mul64 working_set_size iterations) elapsed
      (mul64 (working_set_size / DEFAULT_CACHE_LINE_SIZE) iterations)

/-- StandardTests::sequential_write_test. -/
def sequential_write_test (buffer_size start_offset end_offset iterations : ℕ)
    (stop_flag : Bool) (elapsed : ℚ) : PerformanceStats :=
  let p := align_to_cache_lines start_offset end_offset DEFAULT_CACHE_LINE_SIZE
  if p.2 ≤ p.1 then zeroStats
  else
    let working_set_size := calculate_working_set_size p.1 p.2
    calculate_stats (mul64 working_set_size iterations) elapsed
      (mul64 (working_set_size / DEFAULT_CACHE_LINE_SIZE) iterations)

/-- StandardTests::random_access_test; num_indices is the length of the
shuffled list of cache-line addresses in [aligned_start, aligned_end). -/
def random_access_test (buffer_size start_offset end_offset iterations : ℕ)
    (is_write : Bool) (stop_flag : Bool) (elapsed : ℚ) : PerformanceStats :=
  let p := align_to_cache_lines start_offset end_offset DEFAULT_CACHE_LINE_SIZE
  if p.2 ≤ p.1 then zeroStats
  else
    let num_indices := (p.2 - p.1 + (DEFAULT_CACHE_LINE_SIZE - 1)) / DEFAULT_CACHE_LINE_SIZE
    calculate_stats (mul64 (mul64 num_indices DEFAULT_CACHE_LINE_SIZE) iterations) elapsed
      (mul64 num_indices iterations)

/-- StandardTests::copy_test; bytes_processed counts read and write sides. -/
def copy_test (buffer_size start_offset end_offset iterations : ℕ)
    (stop_flag : Bool) (elapsed : ℚ) : PerformanceStats :=
  let p := align_to_cache_lines start_offset end_offset DEFAULT_CACHE_LINE_SIZE
  if p.2 ≤ p.1 then zeroStats
  else
    let working_set_size := calculate_working_set_size p.1 p.2
    calculate_stats (mul64 (mul64 working_set_size iterations) 2) elapsed
      (mul64 (working_set_size / DEFAULT_CACHE_LINE_SIZE) iterations)

/-- StandardTests::triad_test; the range is aligned to sizeof(double) = 8
rather than to the cache-line size, and bytes_processed counts two reads and
one write. -/
def triad_test (buffer_size start_offset end_offset iterations : ℕ)
    (stop_flag : Bool) (elapsed : ℚ) : PerformanceStats :=
  let p := align_to_cache_lines start_offset end_offset 8
  if p.2 ≤ p.1 then zeroStats
  else
    let working_set_size := p.2 - p.1
    let num_elements := working_set_size / 8
    calculate_stats (mul64 (mul64 working_set_size iterations) 3) elapsed
      (mul64 num_elements iterations)

/-! Thread partitioning in MemoryBandwidthTester::run_test (src/main.cpp). -/

/-- Start offset of worker i: i * (buffer_size / num_threads). -/
def partition_start (buffer_size num_threads i : ℕ) : ℕ :=
  i * (buffer_size / num_threads)

/-- End offset of worker i: the last worker extends to buffer_size, the
others end at (i + 1) * (buffer_size / num_threads). -/
def partition_end (buffer_size num_threads i : ℕ) : ℕ :=
  if i = num_threads - 1 then buffer_size else (i + 1) * (buffer_size / num_threads)

/-- MemoryBandwidthTester::aggregate_stats: sum of per-thread bytes, aggregate
bandwidth from total wall-clock time without any clamp, latency from
cache-line accesses. -/
def aggregate_stats (thread_results : List PerformanceStats) (total_time : ℚ) : PerformanceStats :=
  let total_bytes :=
    thread_results.foldl (fun acc r => add64 acc r.bytes_processed) 0
  { time_seconds := total_time,
    bytes_processed := total_bytes,
    bandwidth_gbps :=
      if 0 < total_time then (total_bytes : ℚ) / (total_time * 10 ^ 9) else 0,
    latency_ns :=
      if 0 < total_bytes then
        if 0 < total_bytes / DEFAULT_CACHE_LINE_SIZE then
          (total_time * 10 ^ 9) / ((total_bytes / DEFAULT_CACHE_LINE_SIZE : ℕ) : ℚ)
        else 0
      else 0 }

/-! Working-set generator (src/common/working_sets.cpp).  Only the size lists
are modelled; the description lists run in lock-step with them in the source
and carry no data the sizes do not determine. -/

structure CacheInfo where
  l1_data_size : ℕ
  l1_instruction_size : ℕ
  l2_size : ℕ
  l3_size : ℕ
  l1d_assoc : ℕ
  l1i_assoc : ℕ
  l2_assoc : ℕ
  l3_assoc : ℕ
  l1_line_size : ℕ
  l2_line_size : ℕ
  l3_line_size : ℕ
deriving DecidableEq

/-- Size list built by the WorkingSetSizes constructor: L1, L2, L3 fractions
and beyond-cache sizes concatenated, then entries outside
[MIN_WORKING_SET_SIZE, MAX_WORKING_SET_SIZE] erased. -/
def workingSetSizes (c : CacheInfo) : List ℕ :=
  let l1_sizes := [c.l1_data_size / 8, c.l1_data_size / 4, c.l1_data_size / 2, c.l1_data_size]
  let l2_sizes := [c.l2_size / 8, c.l2_size / 4, c.l2_size / 2, c.l2_size]
  let l3_sizes := [c.l3_size / 8, c.l3_size / 4, c.l3_size / 2, c.l3_size]
  let beyond_cache_sizes :=
    [mul64 c.l3_size 2, mul64 c.l3_size 4, mul64 c.l3_size 8,
     64 * MB, 128 * MB, 256 * MB, 512 * MB, 1 * GB, 2 * GB, 4 * GB]
  (l1_sizes ++ l2_sizes ++ l3_sizes ++ beyond_cache_sizes).filter
    (fun s => decide (MIN_WORKING_SET_SIZE ≤ s) && decide (s ≤ MAX_WORKING_SET_SIZE))

/-- Size list built by WorkingSetSizes::get_thread_aware_sizes: L1 and L2
candidates from the undivided per-core sizes, SLC candidates from the shared
size divided by the thread count, each tier entry pushed only when at least
MIN_WORKING_SET_SIZE, then the beyond-cache entries filtered against both
bounds.  The literal divisors 4, 2 are WORKING_SET_FRACTIONS[1] and
WORKING_SET_FRACTIONS[2] of the source. -/
def get_thread_aware_sizes (c : CacheInfo) (num_threads : ℕ) : List ℕ :=
  let min_size := MIN_WORKING_SET_SIZE
  let max_size := MAX_WORKING_SET_SIZE
  let l1_per_thread := c.l1_data_size
  let l1_part :=
    (if min_size ≤ l1_per_thread / 4 then [l1_per_thread / 4] else []) ++
    (if min_size ≤ l1_per_thread / 2 then [l1_per_thread / 2] else []) ++
    (if min_size ≤ l1_per_thread then [l1_per_thread] else [])
  let l2_per_thread := c.l2_size
  let l2_part :=
    (if min_size ≤ l2_per_thread / 4 then [l2_per_thread / 4] else []) ++
    (if min_size ≤ l2_per_thread / 2 then [l2_per_thread / 2] else []) ++
    (if min_size ≤ l2_per_thread then [l2_per_thread] else [])
  let l3_per_thread := c.l3_size / num_threads
  let l3_part :=
    (if min_size ≤ l3_per_thread / 4 then [l3_per_thread / 4] else []) ++
    (if min_size ≤ l3_per_thread / 2 then [l3_per_thread / 2] else []) ++
    (if min_size ≤ l3_per_thread then [l3_per_thread] else [])
  let beyond_cache_sizes :=
    [mul64 c.l3_size 2, mul64 c.l3_size 4, 64 * MB, 256 * MB, 1 * GB, 2 * GB, 4 * GB]
  let beyond_part :=
    beyond_cache_sizes.filter (fun s => decide (min_size ≤ s) && decide (s ≤ max_size))
  l1_part ++ l2_part ++ l3_part ++ beyond_part

/-- Sample cache description (8 KB everywhere) used by concrete instantiations. -/
def sampleCacheInfo : CacheInfo :=
  ⟨8192, 8192, 8192, 8192, 8192, 8192, 8192, 8192, 8192, 8192, 8192⟩

/-- Cache description whose L1 data size, 8 GB, exceeds MAX_WORKING_SET_SIZE. -/
def hugeL1CacheInfo : CacheInfo :=
  ⟨8589934592, 0, 0, 0, 0, 0, 0, 0, 0, 0, 0⟩

/-! Helper lemmas about 64-bit bitmask arithmetic. -/

lemma m64_eq : M64 = 2 ^ 64 := rfl

lemma m64_pos : 0 < M64 := Nat.two_pow_pos 64

lemma testBit_two_pow_mul (k m i : ℕ) :
    (2 ^ k * m).testBit i = (decide (k ≤ i) && m.testBit (i - k)) := by
  rcases Nat.lt_or_ge i k with h | h
  · have hik : ¬ k ≤ i := by omega
    have hsplit : (2:ℕ) ^ k = 2 ^ i * (2 * 2 ^ (k - i - 1)) := by
      have hp : (2:ℕ) ^ i * (2 * 2 ^ (k - i - 1)) = 2 ^ (i + (1 + (k - i - 1))) := by
        rw [pow_add, pow_add, pow_one]
      rw [hp, show i + (1 + (k - i - 1)) = k by omega]
    have hq : 2 ^ k * m / 2 ^ i = 2 * (2 ^ (k - i - 1) * m) := by
      rw [hsplit, Nat.mul_assoc, Nat.mul_div_cancel_left _ (Nat.two_pow_pos i), Nat.mul_assoc]
    rw [Nat.testBit_to_div_mod, hq]
    simp [Nat.mul_mod_right, hik]
  · have hsplit : (2:ℕ) ^ i = 2 ^ k * 2 ^ (i - k) := by
      rw [← pow_add]; congr 1; omega
    have hq : 2 ^ k * m / 2 ^ i = m / 2 ^ (i - k) := by
      rw [hsplit, ← Nat.div_div_eq_div_mul, Nat.mul_div_cancel_left _ (Nat.two_pow_pos k)]
    rw [Nat.testBit_to_div_mod, hq, Nat.testBit_to_div_mod]
    simp [h]

lemma testBit_div_pow (x k j : ℕ) : (x / 2 ^ k).testBit j = x.testBit (k + j) := by
  rw [Nat.testBit_to_div_mod, Nat.testBit_to_div_mod, Nat.div_div_eq_div_mul, ← pow_add]

lemma testBit_mask_high (n k i : ℕ) (hkn : k ≤ n) :
    (2 ^ n - 2 ^ k).testBit i = (decide (k ≤ i) && decide (i < n)) := by
  have hk1 : 1 ≤ (2:ℕ) ^ k := Nat.two_pow_pos k
  have hkn2 : (2:ℕ) ^ k ≤ 2 ^ n := Nat.pow_le_pow_right (by norm_num) hkn
  have h1 : (2:ℕ) ^ k - 1 < 2 ^ n := by omega
  have h2 : (2:ℕ) ^ n - 2 ^ k = 2 ^ n - ((2 ^ k - 1) + 1) := by omega
  rw [h2, Nat.testBit_two_pow_sub_succ h1, Nat.testBit_two_pow_sub_one]
  rcases Nat.lt_or_ge i k with hik | hik
  · simp [hik, show ¬ k ≤ i by omega]
  · simp [show ¬ i < k by omega, hik]

lemma and_mask_high (x k n : ℕ) (hkn : k ≤ n) (hx : x < 2 ^ n) :
    x &&& (2 ^ n - 2 ^ k) = x / 2 ^ k * 2 ^ k := by
  apply Nat.eq_of_testBit_eq
  intro i
  rw [Nat.testBit_and, testBit_mask_high n k i hkn]
  have hrhs : (x / 2 ^ k * 2 ^ k).testBit i = (decide (k ≤ i) && x.testBit i) := by
    rw [Nat.mul_comm, testBit_two_pow_mul]
    rcases Nat.lt_or_ge i k with h | h
    · simp [show ¬ k ≤ i by omega]
    · rw [testBit_div_pow, show k + (i - k) = i by omega]
  rw [hrhs]
  rcases Nat.lt_or_ge i n with hin | hin
  · cases hb : x.testBit i <;> simp [hb, hin]
  · have hfb : x.testBit i = false := by
      apply Nat.testBit_lt_two_pow
      calc x < 2 ^ n := hx
        _ ≤ 2 ^ i := Nat.pow_le_pow_right (by norm_num) hin
    simp [hfb]

lemma two_pow_and_pred (k : ℕ) : 2 ^ k &&& (2 ^ k - 1) = 0 := by
  apply Nat.eq_of_testBit_eq
  intro i
  rw [Nat.testBit_and, Nat.testBit_two_pow, Nat.testBit_two_pow_sub_one, Nat.zero_testBit]
  by_cases h : k = i
  · simp [h]
  · simp [h]

lemma pow_of_and_pred (n : ℕ) : 0 < n → n &&& (n - 1) = 0 → ∃ k, n = 2 ^ k := by
  induction n using Nat.strong_induction_on with
  | _ n ih =>
    intro hn h
    rcases Nat.lt_or_ge n 2 with h2 | h2
    · exact ⟨0, by omega⟩
    · rcases Nat.even_or_odd n with ⟨m, hm⟩ | ⟨m, hm⟩
      · have hmpos : 0 < m := by omega
        have hme : m &&& (m - 1) = 0 := by
          have hd : (n &&& (n - 1)) / 2 = n / 2 &&& (n - 1) / 2 := Nat.and_div_two
          have e1 : n / 2 = m := by omega
          have e2 : (n - 1) / 2 = m - 1 := by omega
          rw [h, e1, e2] at hd
          omega
        obtain ⟨k, hk⟩ := ih m (by omega) hmpos hme
        exact ⟨k + 1, by rw [pow_succ]; omega⟩
      · have hm1 : 1 ≤ m := by omega
        have hd : (n &&& (n - 1)) / 2 = n / 2 &&& (n - 1) / 2 := Nat.and_div_two
        have e1 : n / 2 = m := by omega
        have e2 : (n - 1) / 2 = m := by omega
        rw [h, e1, e2, Nat.and_self] at hd
        omega

lemma is_power_of_two_iff (n : ℕ) : is_power_of_two n = true ↔ ∃ k, n = 2 ^ k := by
  unfold is_power_of_two
  simp only [Bool.and_eq_true, decide_eq_true_eq, beq_iff_eq]
  constructor
  · rintro ⟨hn, h⟩
    exact pow_of_and_pred n hn h
  · rintro ⟨k, rfl⟩
    exact ⟨Nat.two_pow_pos k, two_pow_and_pred k⟩

lemma m64_val : M64 = 18446744073709551616 := by norm_num [M64]

lemma sub64_self_one (L : ℕ) (h1 : 1 ≤ L) (h2 : L < M64) : sub64 L 1 = L - 1 := by
  unfold sub64
  rw [m64_val] at h2 ⊢
  omega

lemma add_sub64_norm (s L : ℕ) (h1 : 1 ≤ L) :
    sub64 (add64 s L) 1 = (s + L - 1) % M64 := by
  unfold sub64 add64
  rw [m64_val]
  omega

lemma bitnot64_pow_mask (k : ℕ) (hk : k < 64) :
    bitnot64 (sub64 (2 ^ k) 1) = 2 ^ 64 - 2 ^ k := by
  have h2 : (2:ℕ) ^ k < M64 := by
    rw [m64_eq]
    exact Nat.pow_lt_pow_right (by norm_num) hk
  rw [sub64_self_one _ (Nat.two_pow_pos k) h2]
  unfold bitnot64
  rw [m64_eq] at h2 ⊢
  have := Nat.two_pow_pos k
  omega

lemma align_down_eq (e k : ℕ) (hk : k < 64) (he : e < M64) :
    e &&& bitnot64 (sub64 (2 ^ k) 1) = e / 2 ^ k * 2 ^ k := by
  rw [bitnot64_pow_mask k hk]
  exact and_mask_high e k 64 (by omega) (by rw [← m64_eq]; exact he)

lemma align_up_eq (s k : ℕ) (hk : k < 64) :
    sub64 (add64 s (2 ^ k)) 1 &&& bitnot64 (sub64 (2 ^ k) 1)
      = ((s + 2 ^ k - 1) % M64) / 2 ^ k * 2 ^ k := by
  rw [add_sub64_norm s (2 ^ k) (Nat.two_pow_pos k), bitnot64_pow_mask k hk]
  exact and_mask_high _ k 64 (by omega) (by rw [← m64_eq]; exact Nat.mod_lt _ m64_pos)

lemma calculate_aligned_pointer_eq (addr k : ℕ) (hk : k < 64) :
    calculate_aligned_pointer addr (2 ^ k)
      = ((addr + 2 ^ k - 1) % M64) / 2 ^ k * 2 ^ k :=
  align_up_eq addr k hk

lemma aligned_le (y k : ℕ) (hk : k < 64) (hy : y < M64) :
    y / 2 ^ k * 2 ^ k + 2 ^ k ≤ M64 := by
  have h1 : y / 2 ^ k < 2 ^ (64 - k) := by
    apply Nat.div_lt_of_lt_mul
    rw [← pow_add, show k + (64 - k) = 64 by omega, ← m64_eq]
    exact hy
  calc y / 2 ^ k * 2 ^ k + 2 ^ k = (y / 2 ^ k + 1) * 2 ^ k := by ring
    _ ≤ 2 ^ (64 - k) * 2 ^ k := Nat.mul_le_mul_right _ (by omega)
    _ = M64 := by rw [← pow_add, m64_eq]; congr 1; omega

lemma align_up_fixed (x k : ℕ) (hk : k < 64) (hx : x % 2 ^ k = 0) (hx2 : x + 2 ^ k ≤ M64) :
    ((x + 2 ^ k - 1) % M64) / 2 ^ k * 2 ^ k = x := by
  have hp := Nat.two_pow_pos k
  have hm : x + 2 ^ k - 1 < M64 := by omega
  rw [Nat.mod_eq_of_lt hm]
  obtain ⟨q, rfl⟩ : ∃ q, x = 2 ^ k * q :=
    ⟨x / 2 ^ k, by rw [Nat.mul_comm]; exact (Nat.div_mul_cancel (Nat.dvd_of_mod_eq_zero hx)).symm⟩
  rw [show 2 ^ k * q + 2 ^ k - 1 = (2 ^ k - 1) + 2 ^ k * q by omega,
      Nat.add_mul_div_left _ _ hp, Nat.div_eq_of_lt (by omega)]
  ring

lemma align_down_fixed (x k : ℕ) (hx : x % 2 ^ k = 0) : x / 2 ^ k * 2 ^ k = x :=
  Nat.div_mul_cancel (Nat.dvd_of_mod_eq_zero hx)

/-- Claim C1: for every size > 0 and every power-of-two alignment with
size + alignment not overflowing the 64-bit address width, the constructed
buffer satisfies aligned address mod alignment = 0, and is_aligned returns
true.  The stored aligned address is computed once at construction and never
reassigned, so the invariant holds for the lifetime of the object. -/
theorem alignedBuffer_construct_aligned (raw_addr size k : ℕ)
    (hraw : raw_addr < M64) (hk : k < 64) (hsize : 0 < size)
    (hov : size ≤ SIZE_MAX - 2 ^ k) :
    ∃ b, AlignedBuffer.construct raw_addr size (2 ^ k) = .ok b ∧
      b.aligned_addr % 2 ^ k = 0 ∧ b.is_aligned = true := by
  have hpow : is_power_of_two (2 ^ k) = true := (is_power_of_two_iff _).mpr ⟨k, rfl⟩
  have hkM : (2:ℕ) ^ k < M64 := by
    rw [m64_eq]; exact Nat.pow_lt_pow_right (by norm_num) hk
  have hmod : calculate_aligned_pointer raw_addr (2 ^ k) % 2 ^ k = 0 := by
    rw [calculate_aligned_pointer_eq raw_addr k hk]
    exact Nat.mul_mod_left _ _
  have hc : AlignedBuffer.construct raw_addr size (2 ^ k) =
      .ok ⟨calculate_aligned_pointer raw_addr (2 ^ k), size, 2 ^ k⟩ := by
    unfold AlignedBuffer.construct
    rw [if_neg (by omega), if_neg (by simp [hpow]), if_neg (Nat.not_lt.mpr hov)]
  refine ⟨_, hc, hmod, ?_⟩
  unfold AlignedBuffer.is_aligned
  simp only [sub64_self_one _ (Nat.two_pow_pos k) hkM]
  rw [Nat.and_pow_two_sub_one_eq_mod]
  simpa using hmod

/-- Witness for claim C1 at raw address 10, size 100, alignment 64. -/
theorem alignedBuffer_construct_aligned_witness :
    (10 < M64 ∧ 6 < 64 ∧ 0 < 100 ∧ 100 ≤ SIZE_MAX - 2 ^ 6) ∧
      (∃ b, AlignedBuffer.construct 10 100 (2 ^ 6) = .ok b ∧
        b.aligned_addr % 2 ^ 6 = 0 ∧ b.is_aligned = true) :=
  ⟨⟨by decide, by decide, by decide, by decide⟩,
   alignedBuffer_construct_aligned 10 100 6 (by decide) (by decide) (by decide) (by decide)⟩

/-- Claim C6: the AlignedBuffer constructor fails with MemoryError exactly
when size = 0, or the alignment is not a power of two, or size exceeds
SIZE_MAX - alignment; when none of the three conditions holds, construction
succeeds (allocation always succeeds in the model). -/
theorem alignedBuffer_construct_error_iff (raw_addr size alignment : ℕ) :
    (∃ e, AlignedBuffer.construct raw_addr size alignment = .error e) ↔
      (size = 0 ∨ (¬ ∃ k, alignment = 2 ^ k) ∨ SIZE_MAX - alignment < size) := by
  unfold AlignedBuffer.construct
  by_cases h1 : size = 0
  · simp [h1]
  · by_cases h2 : ∃ k, alignment = 2 ^ k
    · have hp : is_power_of_two alignment = true := (is_power_of_two_iff _).mpr h2
      by_cases h3 : SIZE_MAX - alignment < size
      · simp [h1, hp, h3]
      · simp [h1, hp, h3, h2]
    · have hp : is_power_of_two alignment = false := by
        rcases Bool.eq_false_or_eq_true (is_power_of_two alignment) with ht | hf
        · exact absurd ((is_power_of_two_iff _).mp ht) h2
        · exact hf
      simp [h1, hp, h2]

/-- Claim C9: align_to_cache_lines is idempotent; applying it to its own
output changes nothing, for every power-of-two cache-line size. -/
theorem align_to_cache_lines_idempotent (s e k : ℕ)
    (hk : k < 64) (hs : s < M64) (he : e < M64) :
    align_to_cache_lines (align_to_cache_lines s e (2 ^ k)).1
        (align_to_cache_lines s e (2 ^ k)).2 (2 ^ k) =
      align_to_cache_lines s e (2 ^ k) := by
  have hpk := Nat.two_pow_pos k
  set A := ((s + 2 ^ k - 1) % M64) / 2 ^ k * 2 ^ k with hA
  set B := e / 2 ^ k * 2 ^ k with hB
  have h1 : (align_to_cache_lines s e (2 ^ k)).1 = A := align_up_eq s k hk
  have h2 : (align_to_cache_lines s e (2 ^ k)).2 = B := align_down_eq e k hk he
  have hAlt : A < M64 := lt_of_le_of_lt (Nat.div_mul_le_self _ _) (Nat.mod_lt _ m64_pos)
  have hBlt : B < M64 := lt_of_le_of_lt (Nat.div_mul_le_self _ _) he
  have hAmod : A % 2 ^ k = 0 := Nat.mul_mod_left _ _
  have hBmod : B % 2 ^ k = 0 := Nat.mul_mod_left _ _
  have hAle : A + 2 ^ k ≤ M64 := aligned_le _ k hk (Nat.mod_lt _ m64_pos)
  have lhs1 : (align_to_cache_lines (align_to_cache_lines s e (2 ^ k)).1
      (align_to_cache_lines s e (2 ^ k)).2 (2 ^ k)).1 = A := by
    rw [h1, h2]
    calc (align_to_cache_lines A B (2 ^ k)).1
        = ((A + 2 ^ k - 1) % M64) / 2 ^ k * 2 ^ k := align_up_eq A k hk
      _ = A := align_up_fixed A k hk hAmod hAle
  have lhs2 : (align_to_cache_lines (align_to_cache_lines s e (2 ^ k)).1
      (align_to_cache_lines s e (2 ^ k)).2 (2 ^ k)).2 = B := by
    rw [h1, h2]
    calc (align_to_cache_lines A B (2 ^ k)).2
        = B / 2 ^ k * 2 ^ k := align_down_eq B k hk hBlt
      _ = B := align_down_fixed B k hBmod
  exact Prod.ext_iff.mpr ⟨by rw [lhs1, h1], by rw [lhs2, h2]⟩

/-- Witness for claim C9 at start 10, end 200, cache-line size 64. -/
theorem align_to_cache_lines_idempotent_witness :
    (6 < 64 ∧ 10 < M64 ∧ 200 < M64) ∧
      align_to_cache_lines (align_to_cache_lines 10 200 (2 ^ 6)).1
          (align_to_cache_lines 10 200 (2 ^ 6)).2 (2 ^ 6) =
        align_to_cache_lines 10 200 (2 ^ 6) :=
  ⟨⟨by decide, by decide, by decide⟩,
   align_to_cache_lines_idempotent 10 200 6 (by decide) (by decide) (by decide)⟩

/-! Helper lemmas about the worker partition of run_test. -/

lemma partition_end_le (bs tc i : ℕ) (h1 : 1 ≤ tc) (hi : i < tc) :
    partition_end bs tc i ≤ bs := by
  unfold partition_end
  by_cases hie : i = tc - 1
  · simp [hie]
  · rw [if_neg hie]
    calc (i + 1) * (bs / tc) ≤ tc * (bs / tc) := Nat.mul_le_mul_right _ (by omega)
      _ ≤ bs := by rw [Nat.mul_comm]; exact Nat.div_mul_le_self bs tc

lemma partition_disjoint (bs tc x i j : ℕ) (hij : i < j) (hj : j < tc)
    (hei : x < partition_end bs tc i) (hsj : partition_start bs tc j ≤ x) : False := by
  have hine : i ≠ tc - 1 := by omega
  unfold partition_end at hei
  rw [if_neg hine] at hei
  unfold partition_start at hsj
  have h3 : (i + 1) * (bs / tc) ≤ j * (bs / tc) := Nat.mul_le_mul_right _ (by omega)
  exact Nat.lt_irrefl x (Nat.lt_of_lt_of_le hei (Nat.le_trans h3 hsj))

lemma partition_unique (bs tc x i j : ℕ) (hitc : i < tc) (hjtc : j < tc)
    (hsi : partition_start bs tc i ≤ x) (hei : x < partition_end bs tc i)
    (hsj : partition_start bs tc j ≤ x) (hej : x < partition_end bs tc j) : i = j := by
  by_contra hne
  rcases Nat.lt_or_ge i j with hlt | hge
  · exact partition_disjoint bs tc x i j hlt hjtc hei hsj
  · exact partition_disjoint bs tc x j i (by omega) hitc hej hsi

/-- Claim C2: run_test partitions the buffer into the ranges
[i * (buffer_size / num_threads), (i + 1) * (buffer_size / num_threads)) with
the last worker extended to buffer_size; the last partition absorbs the
remainder of the integer division, and every byte below buffer_size lies in
exactly one worker range (no gaps, no overlaps). -/
theorem run_test_partition (buffer_size num_threads : ℕ) (h : 1 ≤ num_threads) :
    partition_end buffer_size num_threads (num_threads - 1) = buffer_size ∧
    ∀ x, x < buffer_size ↔
      ∃! i, i < num_threads ∧ partition_start buffer_size num_threads i ≤ x ∧
        x < partition_end buffer_size num_threads i := by
  constructor
  · unfold partition_end
    simp
  · intro x
    constructor
    · intro hx
      by_cases hc : 0 < buffer_size / num_threads ∧
          x / (buffer_size / num_threads) < num_threads - 1
      · obtain ⟨hqpos, hlt⟩ := hc
        have hs0 : partition_start buffer_size num_threads
            (x / (buffer_size / num_threads)) ≤ x := by
          unfold partition_start
          exact Nat.div_mul_le_self x _
        have he0 : x < partition_end buffer_size num_threads
            (x / (buffer_size / num_threads)) := by
          unfold partition_end
          rw [if_neg (by omega)]
          calc x = buffer_size / num_threads * (x / (buffer_size / num_threads)) +
                x % (buffer_size / num_threads) := (Nat.div_add_mod x _).symm
            _ < buffer_size / num_threads * (x / (buffer_size / num_threads)) +
                buffer_size / num_threads :=
              Nat.add_lt_add_left (Nat.mod_lt x hqpos) _
            _ = (x / (buffer_size / num_threads) + 1) * (buffer_size / num_threads) := by
              ring
        exact ⟨x / (buffer_size / num_threads), ⟨by omega, hs0, he0⟩,
          fun j hj => partition_unique buffer_size num_threads x j _
            hj.1 (by omega) hj.2.1 hj.2.2 hs0 he0⟩
      · have hs0 : partition_start buffer_size num_threads (num_threads - 1) ≤ x := by
          unfold partition_start
          rcases Nat.eq_zero_or_pos (buffer_size / num_threads) with hq0 | hqpos
          · rw [hq0]
            simp
          · have h1 : num_threads - 1 ≤ x / (buffer_size / num_threads) := by
              rcases Nat.lt_or_ge (x / (buffer_size / num_threads)) (num_threads - 1)
                with hlt2 | hge2
              · exact absurd ⟨hqpos, hlt2⟩ hc
              · exact hge2
            calc (num_threads - 1) * (buffer_size / num_threads)
                ≤ x / (buffer_size / num_threads) * (buffer_size / num_threads) :=
                  Nat.mul_le_mul_right _ h1
              _ ≤ x := Nat.div_mul_le_self x _
        have he0 : x < partition_end buffer_size num_threads (num_threads - 1) := by
          unfold partition_end
          simpa using hx
        exact ⟨num_threads - 1, ⟨by omega, hs0, he0⟩,
          fun j hj => partition_unique buffer_size num_threads x j _
            hj.1 (by omega) hj.2.1 hj.2.2 hs0 he0⟩
    · rintro ⟨i, ⟨hi, hsi, hei⟩, _⟩
      exact Nat.lt_of_lt_of_le hei (partition_end_le buffer_size num_threads i h hi)

/-- Witness for claim C2 with buffer size 10 and 3 threads. -/
theorem run_test_partition_witness :
    1 ≤ 3 ∧ (partition_end 10 3 (3 - 1) = 10 ∧
      ∀ x, x < 10 ↔ ∃! i, i < 3 ∧ partition_start 10 3 i ≤ x ∧ x < partition_end 10 3 i) :=
  ⟨by decide, run_test_partition 10 3 (by decide)⟩

/-- Claim C3: for positive time and operations, calculate_stats returns the
bandwidth quotient clamped at the 60 GB/s ceiling exactly when the raw value
exceeds it, and the latency quotient; on the two concrete inputs of the
specification it yields bandwidth 1 with latency 1000, and clamped
bandwidth 60. -/
theorem calculate_stats_spec (bytes operations : ℕ) (t : ℚ)
    (ht : 0 < t) (hop : 0 < operations) :
    ((calculate_stats bytes t operations).bandwidth_gbps =
        (if MAX_REALISTIC_BANDWIDTH_GBPS < (bytes : ℚ) / (t * 10 ^ 9)
         then MAX_REALISTIC_BANDWIDTH_GBPS else (bytes : ℚ) / (t * 10 ^ 9)) ∧
      (calculate_stats bytes t operations).latency_ns = (t * 10 ^ 9) / (operations : ℚ)) ∧
    (calculate_stats 1000000000 1 1000000).bandwidth_gbps = 1 ∧
    (calculate_stats 1000000000 1 1000000).latency_ns = 1000 ∧
    (calculate_stats 1000000000000 (1 / 1000) 1000000).bandwidth_gbps = 60 := by
  refine ⟨⟨?_, ?_⟩, ?_, ?_, ?_⟩
  · simp [calculate_stats, ht, hop]
  · simp [calculate_stats, ht, hop]
  · norm_num [calculate_stats, MAX_REALISTIC_BANDWIDTH_GBPS]
  · norm_num [calculate_stats, MAX_REALISTIC_BANDWIDTH_GBPS]
  · norm_num [calculate_stats, MAX_REALISTIC_BANDWIDTH_GBPS]

/-- Witness for claim C3 at bytes 10^9, time 1 s, operations 10^6. -/
theorem calculate_stats_spec_witness :
    ((0:ℚ) < 1 ∧ (0:ℕ) < 1000000) ∧
      (((calculate_stats 1000000000 1 1000000).bandwidth_gbps =
          (if MAX_REALISTIC_BANDWIDTH_GBPS < ((1000000000 : ℕ) : ℚ) / ((1:ℚ) * 10 ^ 9)
           then MAX_REALISTIC_BANDWIDTH_GBPS
           else ((1000000000 : ℕ) : ℚ) / ((1:ℚ) * 10 ^ 9)) ∧
        (calculate_stats 1000000000 1 1000000).latency_ns =
          ((1:ℚ) * 10 ^ 9) / ((1000000 : ℕ) : ℚ)) ∧
      (calculate_stats 1000000000 1 1000000).bandwidth_gbps = 1 ∧
      (calculate_stats 1000000000 1 1000000).latency_ns = 1000 ∧
      (calculate_stats 1000000000000 (1 / 1000) 1000000).bandwidth_gbps = 60) :=
  ⟨⟨by norm_num, by norm_num⟩,
   calculate_stats_spec 1000000000 1000000 1 (by norm_num) (by norm_num)⟩

/-! Helper lemmas about the kernels and the working-set generator. -/

lemma calculate_stats_bytes (b : ℕ) (t : ℚ) (o : ℕ) :
    (calculate_stats b t o).bytes_processed = b := by
  unfold calculate_stats
  split <;> rfl

lemma tier_part_eq (v : ℕ) :
    ((if MIN_WORKING_SET_SIZE ≤ v / 4 then [v / 4] else []) ++
        (if MIN_WORKING_SET_SIZE ≤ v / 2 then [v / 2] else []) ++
        (if MIN_WORKING_SET_SIZE ≤ v then [v] else [])) =
      [v / 4, v / 2, v].filter (fun s => decide (MIN_WORKING_SET_SIZE ≤ s)) := by
  simp only [List.filter_cons, List.filter_nil, decide_eq_true_eq]
  split_ifs <;> simp

lemma get_thread_aware_sizes_eq (c : CacheInfo) (tc : ℕ) :
    get_thread_aware_sizes c tc =
      ([c.l1_data_size / 4, c.l1_data_size / 2, c.l1_data_size].filter
          (fun s => decide (MIN_WORKING_SET_SIZE ≤ s))) ++
        ([c.l2_size / 4, c.l2_size / 2, c.l2_size].filter
          (fun s => decide (MIN_WORKING_SET_SIZE ≤ s))) ++
        ([c.l3_size / tc / 4, c.l3_size / tc / 2, c.l3_size / tc].filter
          (fun s => decide (MIN_WORKING_SET_SIZE ≤ s))) ++
        ([mul64 c.l3_size 2, mul64 c.l3_size 4,
            64 * MB, 256 * MB, 1 * GB, 2 * GB, 4 * GB].filter
          (fun s => decide (MIN_WORKING_SET_SIZE ≤ s) && decide (s ≤ MAX_WORKING_SET_SIZE))) := by
  unfold get_thread_aware_sizes
  dsimp only
  rw [tier_part_eq, tier_part_eq, tier_part_eq]

/-- Claim C4 (amended): every size produced by the WorkingSetSizes
constructor lies within [MIN_WORKING_SET_SIZE, MAX_WORKING_SET_SIZE], with
out-of-bounds candidates dropped at construction rather than reported as
errors; every size produced by get_thread_aware_sizes is at least
MIN_WORKING_SET_SIZE, but its cache-tier candidates are not checked against
the upper bound. -/
theorem working_set_sizes_bounds (c : CacheInfo) (num_threads : ℕ) (h : 1 ≤ num_threads) :
    (∀ s ∈ workingSetSizes c,
        MIN_WORKING_SET_SIZE ≤ s ∧ s ≤ MAX_WORKING_SET_SIZE) ∧
      (∀ s ∈ get_thread_aware_sizes c num_threads, MIN_WORKING_SET_SIZE ≤ s) := by
  constructor
  · intro s hs
    unfold workingSetSizes at hs
    simp only [List.mem_filter, Bool.and_eq_true, decide_eq_true_eq] at hs
    exact hs.2
  · intro s hs
    rw [get_thread_aware_sizes_eq] at hs
    simp only [List.mem_append, List.mem_filter, Bool.and_eq_true, decide_eq_true_eq] at hs
    rcases hs with ((h1 | h2) | h3) | h4
    · exact h1.2
    · exact h2.2
    · exact h3.2
    · exact h4.2.1

/-- Witness for claim C4 (amended) on the sample cache with 2 threads. -/
theorem working_set_sizes_bounds_witness :
    1 ≤ 2 ∧
      ((∀ s ∈ workingSetSizes sampleCacheInfo,
          MIN_WORKING_SET_SIZE ≤ s ∧ s ≤ MAX_WORKING_SET_SIZE) ∧
        (∀ s ∈ get_thread_aware_sizes sampleCacheInfo 2, MIN_WORKING_SET_SIZE ≤ s)) :=
  ⟨by decide, working_set_sizes_bounds sampleCacheInfo 2 (by decide)⟩

/-- Claim C4 counterexample: on a cache description whose L1 data size is
8 GB, get_thread_aware_sizes emits the full L1 size, which exceeds
MAX_WORKING_SET_SIZE, so the bound claimed for every cache_info fails. -/
theorem thread_aware_exceeds_max :
    8589934592 ∈ get_thread_aware_sizes hugeL1CacheInfo 1 ∧
      ¬ (8589934592 ≤ MAX_WORKING_SET_SIZE) := by
  constructor
  · decide
  · decide

/-- Claim C7: get_thread_aware_sizes hands the core-private L1 and L2 caches
undivided to each thread while the shared cache is divided by the thread
count before the fractions are taken, and a shared-cache-per-thread value
below the minimum working-set size makes that whole tier empty rather than
an error; the beyond-cache multiples appear with the size_t wraparound of
the source. -/
theorem thread_aware_structure (c : CacheInfo) (num_threads : ℕ) (h : 1 ≤ num_threads) :
    (get_thread_aware_sizes c num_threads =
      ([c.l1_data_size / 4, c.l1_data_size / 2, c.l1_data_size].filter
          (fun s => decide (MIN_WORKING_SET_SIZE ≤ s))) ++
        ([c.l2_size / 4, c.l2_size / 2, c.l2_size].filter
          (fun s => decide (MIN_WORKING_SET_SIZE ≤ s))) ++
        ([c.l3_size / num_threads / 4, c.l3_size / num_threads / 2,
            c.l3_size / num_threads].filter
          (fun s => decide (MIN_WORKING_SET_SIZE ≤ s))) ++
        ([mul64 c.l3_size 2, mul64 c.l3_size 4,
            64 * MB, 256 * MB, 1 * GB, 2 * GB, 4 * GB].filter
          (fun s => decide (MIN_WORKING_SET_SIZE ≤ s) && decide (s ≤ MAX_WORKING_SET_SIZE)))) ∧
      (c.l3_size / num_threads < MIN_WORKING_SET_SIZE →
        [c.l3_size / num_threads / 4, c.l3_size / num_threads / 2,
            c.l3_size / num_threads].filter
          (fun s => decide (MIN_WORKING_SET_SIZE ≤ s)) = []) := by
  refine ⟨get_thread_aware_sizes_eq c num_threads, ?_⟩
  intro hlt
  have h4 : c.l3_size / num_threads / 4 < MIN_WORKING_SET_SIZE :=
    lt_of_le_of_lt (Nat.div_le_self _ _) hlt
  have h2 : c.l3_size / num_threads / 2 < MIN_WORKING_SET_SIZE :=
    lt_of_le_of_lt (Nat.div_le_self _ _) hlt
  simp only [List.filter_cons, List.filter_nil, decide_eq_true_eq]
  rw [if_neg (Nat.not_le.mpr h4), if_neg (Nat.not_le.mpr h2), if_neg (Nat.not_le.mpr hlt)]

/-- Witness for claim C7 on the sample cache (shared cache 8 KB) with 4
threads, whose shared-cache-per-thread value 2 KB is below the minimum. -/
theorem thread_aware_structure_witness :
    1 ≤ 4 ∧
      (get_thread_aware_sizes sampleCacheInfo 4 =
        ([sampleCacheInfo.l1_data_size / 4, sampleCacheInfo.l1_data_size / 2,
            sampleCacheInfo.l1_data_size].filter
            (fun s => decide (MIN_WORKING_SET_SIZE ≤ s))) ++
          ([sampleCacheInfo.l2_size / 4, sampleCacheInfo.l2_size / 2,
              sampleCacheInfo.l2_size].filter
            (fun s => decide (MIN_WORKING_SET_SIZE ≤ s))) ++
          ([sampleCacheInfo.l3_size / 4 / 4, sampleCacheInfo.l3_size / 4 / 2,
              sampleCacheInfo.l3_size / 4].filter
            (fun s => decide (MIN_WORKING_SET_SIZE ≤ s))) ++
          ([mul64 sampleCacheInfo.l3_size 2, mul64 sampleCacheInfo.l3_size 4,
              64 * MB, 256 * MB, 1 * GB, 2 * GB, 4 * GB].filter
            (fun s => decide (MIN_WORKING_SET_SIZE ≤ s) &&
              decide (s ≤ MAX_WORKING_SET_SIZE)))) ∧
      ([sampleCacheInfo.l3_size / 4 / 4, sampleCacheInfo.l3_size / 4 / 2,
          sampleCacheInfo.l3_size / 4].filter
        (fun s => decide (MIN_WORKING_SET_SIZE ≤ s)) = []) :=
  ⟨by decide, (thread_aware_structure sampleCacheInfo 4 (by decide)).1,
   (thread_aware_structure sampleCacheInfo 4 (by decide)).2 (by decide)⟩

/-- Claim C5: every access kernel returns the all-zero statistics record, for
every buffer size, offsets, iteration count and cancellation-flag state,
whenever the supplied range collapses to empty after alignment; in the model
the kernels are total functions, so no exception can be raised. -/
theorem kernels_zero_range (buffer_size start_offset end_offset iterations : ℕ)
    (stop_flag : Bool) (elapsed : ℚ) :
    (((align_to_cache_lines start_offset end_offset DEFAULT_CACHE_LINE_SIZE).2 ≤
          (align_to_cache_lines start_offset end_offset DEFAULT_CACHE_LINE_SIZE).1 →
        sequential_read_test buffer_size start_offset end_offset iterations
            stop_flag elapsed = zeroStats ∧
          sequential_write_test buffer_size start_offset end_offset iterations
            stop_flag elapsed = zeroStats ∧
          random_access_test buffer_size start_offset end_offset iterations
            false stop_flag elapsed = zeroStats ∧
          random_access_test buffer_size start_offset end_offset iterations
            true stop_flag elapsed = zeroStats ∧
          copy_test buffer_size start_offset end_offset iterations
            stop_flag elapsed = zeroStats)) ∧
      ((align_to_cache_lines start_offset end_offset 8).2 ≤
          (align_to_cache_lines start_offset end_offset 8).1 →
        triad_test buffer_size start_offset end_offset iterations
          stop_flag elapsed = zeroStats) := by
  constructor
  · intro h
    refine ⟨?_, ?_, ?_, ?_, ?_⟩ <;>
      simp [sequential_read_test, sequential_write_test, random_access_test, copy_test, h]
  · intro h
    simp [triad_test, h]

/-- Witness for claim C5 at offsets 1 and 10, whose aligned ranges are empty
for the cache-line size 64 and for the double size 8. -/
theorem kernels_zero_range_witness :
    sequential_read_test 4096 1 10 5 false 1 = zeroStats ∧
      triad_test 4096 1 10 5 false 1 = zeroStats :=
  ⟨((kernels_zero_range 4096 1 10 5 false 1).1 (by decide)).1,
   (kernels_zero_range 4096 1 10 5 false 1).2 (by decide)⟩

/-- Claim C8 counterexample: bytes_processed is computed in size_t, which
wraps; on a 64-byte aligned range with 2^58 iterations the program returns
bytes_processed = 0, while the exact product range times iterations is
2^64, nonzero, so the claimed equality fails. -/
theorem kernels_bytes_wrap :
    (sequential_read_test 4096 0 64 288230376151711744 false 1).bytes_processed = 0 ∧
      ((align_to_cache_lines 0 64 DEFAULT_CACHE_LINE_SIZE).2 -
        (align_to_cache_lines 0 64 DEFAULT_CACHE_LINE_SIZE).1) * 288230376151711744 ≠ 0 := by
  constructor
  · decide
  · decide

/-- Claim C8 (amended): for a non-empty aligned range, bytes_processed equals
the aligned range size times the iteration count times the pattern
multiplier, reduced modulo 2^64 as the size_t products of the source are:
one for sequential read, two for copy, three for triad (over the
double-aligned range); the exact product is returned whenever it fits in
64 bits. -/
theorem kernels_bytes_processed (buffer_size start_offset end_offset iterations : ℕ)
    (stop_flag : Bool) (elapsed : ℚ) :
    (((align_to_cache_lines start_offset end_offset DEFAULT_CACHE_LINE_SIZE).1 <
          (align_to_cache_lines start_offset end_offset DEFAULT_CACHE_LINE_SIZE).2 →
        (sequential_read_test buffer_size start_offset end_offset iterations
            stop_flag elapsed).bytes_processed =
          ((align_to_cache_lines start_offset end_offset DEFAULT_CACHE_LINE_SIZE).2 -
            (align_to_cache_lines start_offset end_offset DEFAULT_CACHE_LINE_SIZE).1) *
            iterations % M64 ∧
        (copy_test buffer_size start_offset end_offset iterations
            stop_flag elapsed).bytes_processed =
          ((align_to_cache_lines start_offset end_offset DEFAULT_CACHE_LINE_SIZE).2 -
            (align_to_cache_lines start_offset end_offset DEFAULT_CACHE_LINE_SIZE).1) *
            iterations * 2 % M64)) ∧
      ((align_to_cache_lines start_offset end_offset 8).1 <
          (align_to_cache_lines start_offset end_offset 8).2 →
        (triad_test buffer_size start_offset end_offset iterations
            stop_flag elapsed).bytes_processed =
          ((align_to_cache_lines start_offset end_offset 8).2 -
            (align_to_cache_lines start_offset end_offset 8).1) * iterations * 3 % M64) := by
  constructor
  · intro h
    have hne : ¬ ((align_to_cache_lines start_offset end_offset DEFAULT_CACHE_LINE_SIZE).2 ≤
        (align_to_cache_lines start_offset end_offset DEFAULT_CACHE_LINE_SIZE).1) := by omega
    constructor
    · simp [sequential_read_test, hne, calculate_stats_bytes, mul64]
    · simp [copy_test, hne, calculate_stats_bytes, calculate_working_set_size, mul64,
        Nat.mod_mul_mod]
  · intro h
    have hne : ¬ ((align_to_cache_lines start_offset end_offset 8).2 ≤
        (align_to_cache_lines start_offset end_offset 8).1) := by omega
    simp [triad_test, hne, calculate_stats_bytes, mul64, Nat.mod_mul_mod]

/-- Witness for claim C8 (amended) at offsets 0 and 128 with 5 iterations. -/
theorem kernels_bytes_processed_witness :
    ((sequential_read_test 4096 0 128 5 false 1).bytes_processed =
        ((align_to_cache_lines 0 128 DEFAULT_CACHE_LINE_SIZE).2 -
          (align_to_cache_lines 0 128 DEFAULT_CACHE_LINE_SIZE).1) * 5 % M64 ∧
      (copy_test 4096 0 128 5 false 1).bytes_processed =
        ((align_to_cache_lines 0 128 DEFAULT_CACHE_LINE_SIZE).2 -
          (align_to_cache_lines 0 128 DEFAULT_CACHE_LINE_SIZE).1) * 5 * 2 % M64) ∧
      (triad_test 4096 0 128 5 false 1).bytes_processed =
        ((align_to_cache_lines 0 128 8).2 - (align_to_cache_lines 0 128 8).1) * 5 * 3 % M64 :=
  ⟨(kernels_bytes_processed 4096 0 128 5 false 1).1 (by decide),
   (kernels_bytes_processed 4096 0 128 5 false 1).2 (by decide)⟩

/-- Claim C10: the 60 GB/s ceiling is applied only inside calculate_stats;
every per-kernel record respects it, while aggregate_stats recomputes the
aggregated bandwidth without a clamp, and on two clamped per-thread records
of 10^12 bytes over one millisecond the aggregate bandwidth exceeds the
ceiling each individual result respects. -/
theorem aggregate_exceeds_ceiling :
    (∀ (b o : ℕ) (t : ℚ),
        (calculate_stats b t o).bandwidth_gbps ≤ MAX_REALISTIC_BANDWIDTH_GBPS) ∧
      (calculate_stats 1000000000000 (1 / 1000) 1000000).bandwidth_gbps =
        MAX_REALISTIC_BANDWIDTH_GBPS ∧
      MAX_REALISTIC_BANDWIDTH_GBPS <
        (aggregate_stats
          [calculate_stats 1000000000000 (1 / 1000) 1000000,
            calculate_stats 1000000000000 (1 / 1000) 1000000] (1 / 1000)).bandwidth_gbps := by
  refine ⟨?_, ?_, ?_⟩
  · intro b o t
    simp only [calculate_stats]
    by_cases hc : 0 < t ∧ 0 < o
    · rw [if_pos hc]
      dsimp only
      split
      · exact le_refl _
      · next hclamp => exact le_of_not_lt hclamp
    · rw [if_neg hc]
      norm_num [MAX_REALISTIC_BANDWIDTH_GBPS]
  · norm_num [calculate_stats, MAX_REALISTIC_BANDWIDTH_GBPS]
  · norm_num [aggregate_stats, calculate_stats, calculate_stats_bytes,
      MAX_REALISTIC_BANDWIDTH_GBPS, DEFAULT_CACHE_LINE_SIZE,
      List.foldl_cons, List.foldl_nil, add64, M64]

end MemBench
